import Mathlib

/-!
Shallow embedding of the iron-condor search and roll logic of the
`trade_lab` repository.

Embedded source files:
* `src/qc/spxw_1dte_baseline/IronCondorFinder.py` — the spread builder,
  the condor tweak loop, the balance checks, `find_iron_condor`.
* `src/qc/spxw_1dte/util.py` — `find_spread_with_target_delta`,
  `calculate_straddle_price` / `find_initial_spread` (textually identical
  to the `IronCondorFinder` methods of the same names).
* `src/qc/spxw_1dte/PositionRoller.py` — `roll_for_side`.

Modelling conventions: Python floats become `ℚ`; `round(x, 2)` becomes
`round2`; `round(x)` becomes `Rat.round`-style integer rounding via
Mathlib's `round`; contract objects become the `Contract` structure with
an opaque `Nat` identifier in place of a QuantConnect symbol; `None`
becomes `none`; a raised exception becomes `Except.error`; the
QuantConnect `securities` quote lookup becomes an explicit `Env` of
bid/ask functions; dates become `Nat` day numbers (so `timedelta(days=7)`
is `+ 7`).  Order submission (`combo_market_order`) is an external side
effect with no influence on the returned data, so it is elided.
-/

/-- `OptionRight` from the QuantConnect API: an option is a call or a put. -/
inductive OptionRight where
  | CALL : OptionRight
  | PUT : OptionRight
deriving DecidableEq

/-- One option contract as the Python code reads it: `strike`,
`bid_price`, `ask_price`, `greeks.delta` (field `delta` here),
`expiry` (a day number) and an opaque `symbol` identifier. -/
structure Contract where
  symbol : Nat
  strike : ℚ
  bid_price : ℚ
  ask_price : ℚ
  delta : ℚ
  expiry : Nat
  right : OptionRight
deriving DecidableEq

instance : Inhabited Contract :=
  ⟨{ symbol := 0, strike := 0, bid_price := 0, ask_price := 0, delta := 0,
     expiry := 0, right := OptionRight.CALL }⟩

/-- The spread dictionary built by the Python code:
`{"short_leg", "long_leg", "price", "delta", "side"}`. -/
structure Spread where
  short_leg : Contract
  long_leg : Contract
  price : ℚ
  delta : ℚ
  side : String
deriving DecidableEq

/-- Python's `round(x, 2)` on exact rationals: round to the nearest
multiple of `1/100`. -/
def round2 (x : ℚ) : ℚ := ((round (x * 100) : ℤ) : ℚ) / 100

/-- Python's `min(l, key=k)` on a nonempty list: the first element of the
list attaining the minimal key (ties keep the earlier element). -/
def minByKey (key : Contract → ℚ) : List Contract → Option Contract
  | [] => none
  | c :: cs => some (cs.foldl (fun best x => if key x < key best then x else best) c)

/-- The configuration fields of `IronCondorFinder.__init__`
(`src/qc/spxw_1dte_baseline/IronCondorFinder.py`). -/
structure IronCondorFinder where
  spread_width : ℚ
  min_credit : ℚ
  max_credit : ℚ
  max_call_delta : ℚ
  min_call_delta : ℚ
  max_put_delta : ℚ
  min_put_delta : ℚ
  max_total_delta : ℚ
  credit_balance_ratio : ℚ
  delta_ratio : ℚ
  max_tweak_attempts : Nat

/-- `IronCondorFinder.calculate_straddle_price` (identical to
`util.calculate_straddle_price`): round(ATM call ask + ATM put ask), where
ATM minimises `|strike − spx_price|`.  Python's `min` on an empty list
raises; every caller in the source guards both sides nonempty first, so
the `default` fallback of the model is never reached there. -/
def calculate_straddle_price (contracts : List Contract) (spx_price : ℚ) : ℚ :=
  let call_atm :=
    (minByKey (fun x => |x.strike - spx_price|)
      (contracts.filter (fun c => c.right == OptionRight.CALL))).getD default
  let put_atm :=
    (minByKey (fun x => |x.strike - spx_price|)
      (contracts.filter (fun c => c.right == OptionRight.PUT))).getD default
  ((round (call_atm.ask_price + put_atm.ask_price) : ℤ) : ℚ)

/-- The leg-selection idiom the Python code repeats:
`next((c for c in contracts if c.strike == target), None)` followed by a
`min(contracts, key=lambda x: abs(x.strike - target))` fallback — the
contract at exactly the target strike, else the one nearest to it. -/
def pick_contract (contracts : List Contract) (target : ℚ) : Contract :=
  match contracts.find? (fun c => decide (c.strike = target)) with
  | some c => c
  | none => (minByKey (fun x => |x.strike - target|) contracts).getD default

/-- `IronCondorFinder.find_initial_spread` (identical to
`util.find_initial_spread`): short leg at the 2-sigma target strike
snapped to the nearest multiple of 5 (nearest-strike fallback), long leg
only at exactly `spread_width` away, else no spread. -/
def find_initial_spread (f : IronCondorFinder) (contracts : List Contract)
    (spx_price straddle_price : ℚ) (side : String) : Option Spread :=
  let target_strike :=
    if side == "CALL" then spx_price + 2 * straddle_price
    else spx_price - 2 * straddle_price
  let target_strike := ((round (target_strike / 5) : ℤ) : ℚ) * 5
  let short_leg := pick_contract contracts target_strike
  let long_strike :=
    if side == "CALL" then short_leg.strike + f.spread_width
    else short_leg.strike - f.spread_width
  match contracts.find? (fun c => decide (c.strike = long_strike)) with
  | none => none
  | some long_leg =>
      some { short_leg := short_leg, long_leg := long_leg,
             price := round2 (short_leg.bid_price - long_leg.ask_price),
             delta := |short_leg.delta|, side := side }

/-- `IronCondorFinder.build_spread`: short leg at the given strike
(nearest fallback), long leg among the candidates strictly on the correct
side of the short leg (exact target first, else nearest valid). -/
def build_spread (f : IronCondorFinder) (contracts : List Contract)
    (short_strike : ℚ) (side : String) : Option Spread :=
  if contracts.isEmpty then none
  else
    let short_leg := pick_contract contracts short_strike
    let valid_longs :=
      if side == "CALL" then contracts.filter (fun c => decide (c.strike > short_leg.strike))
      else contracts.filter (fun c => decide (c.strike < short_leg.strike))
    let target_long_strike :=
      if side == "CALL" then short_leg.strike + f.spread_width
      else short_leg.strike - f.spread_width
    if valid_longs.isEmpty then none
    else
      let long_leg := pick_contract valid_longs target_long_strike
      some { short_leg := short_leg, long_leg := long_leg,
             price := round2 (short_leg.bid_price - long_leg.ask_price),
             delta := |short_leg.delta|, side := side }

/-- `IronCondorFinder.move_spread_up`: move the short strike toward
at-the-money by `points` and rebuild. -/
def move_spread_up (f : IronCondorFinder) (spread : Spread)
    (contracts : List Contract) (points : ℚ) : Option Spread :=
  let new_short_strike :=
    if spread.side == "CALL" then spread.short_leg.strike - points
    else spread.short_leg.strike + points
  build_spread f contracts new_short_strike spread.side

/-- `IronCondorFinder.move_spread_away`: move the short strike away from
at-the-money by `points` and rebuild. -/
def move_spread_away (f : IronCondorFinder) (spread : Spread)
    (contracts : List Contract) (points : ℚ) : Option Spread :=
  let new_short_strike :=
    if spread.side == "CALL" then spread.short_leg.strike + points
    else spread.short_leg.strike - points
  build_spread f contracts new_short_strike spread.side

/-- `IronCondorFinder.is_credit_balanced`: `min/max ≥ credit_balance_ratio`,
with an explicit `larger == 0` guard returning `False`. -/
def is_credit_balanced (f : IronCondorFinder) (call_credit put_credit : ℚ) : Bool :=
  let smaller := min call_credit put_credit
  let larger := max call_credit put_credit
  if larger = 0 then false
  else decide (smaller / larger ≥ IronCondorFinder.credit_balance_ratio f)

/-- `IronCondorFinder.is_delta_balanced`: `min/max ≥ delta_ratio`, with an
explicit `larger == 0` guard returning `False`. -/
def is_delta_balanced (f : IronCondorFinder) (call_delta put_delta : ℚ) : Bool :=
  let smaller := min call_delta put_delta
  let larger := max call_delta put_delta
  if larger = 0 then false
  else decide (smaller / larger ≥ IronCondorFinder.delta_ratio f)

/-- The body of the `while` loop of `IronCondorFinder.tweak_strategy`,
with the loop counter made explicit: `fuel` is the number of remaining
iterations allowed (`max_tweak_attempts − tweak_attempts`), and
`tweak_attempts` is the Python counter value before the iteration. -/
def tweak_go (f : IronCondorFinder) (calls puts : List Contract) :
    Nat → Option Spread → Option Spread → Nat → Option (Spread × Spread × Nat)
  | 0, _, _, _ => none
  | fuel + 1, call_spread, put_spread, tweak_attempts =>
    let tweak_attempts := tweak_attempts + 1
    match call_spread, put_spread with
    | some cs, some ps =>
      let strategy_price := cs.price + ps.price
      if strategy_price < IronCondorFinder.min_credit f then
        if cs.price < ps.price then
          tweak_go f calls puts fuel (move_spread_up f cs calls 5) (some ps) tweak_attempts
        else
          tweak_go f calls puts fuel (some cs) (move_spread_up f ps puts 5) tweak_attempts
      else if strategy_price > IronCondorFinder.max_credit f then
        if cs.price > ps.price then
          tweak_go f calls puts fuel (move_spread_away f cs calls 5) (some ps) tweak_attempts
        else
          tweak_go f calls puts fuel (some cs) (move_spread_away f ps puts 5) tweak_attempts
      else if cs.delta > IronCondorFinder.max_call_delta f then
        tweak_go f calls puts fuel (move_spread_away f cs calls 5) (some ps) tweak_attempts
      else if ps.delta > IronCondorFinder.max_put_delta f then
        tweak_go f calls puts fuel (some cs) (move_spread_away f ps puts 5) tweak_attempts
      else if cs.delta + ps.delta > IronCondorFinder.max_total_delta f then
        if cs.delta > ps.delta then
          tweak_go f calls puts fuel (move_spread_away f cs calls 5) (some ps) tweak_attempts
        else
          tweak_go f calls puts fuel (some cs) (move_spread_away f ps puts 5) tweak_attempts
      else if ¬ (is_credit_balanced f cs.price ps.price) then
        if cs.price < ps.price then
          tweak_go f calls puts fuel (move_spread_up f cs calls 5) (some ps) tweak_attempts
        else
          tweak_go f calls puts fuel (some cs) (move_spread_up f ps puts 5) tweak_attempts
      else if ¬ (is_delta_balanced f cs.delta ps.delta) then
        if cs.delta < ps.delta then
          tweak_go f calls puts fuel (move_spread_up f cs calls 5)
            (move_spread_away f ps puts 5) tweak_attempts
        else
          tweak_go f calls puts fuel (move_spread_away f cs calls 5)
            (move_spread_up f ps puts 5) tweak_attempts
      else
        some (cs, ps, tweak_attempts)
    | _, _ => none

/-- `IronCondorFinder.tweak_strategy`: run the loop with the counter at 0
and `max_tweak_attempts` iterations of budget. -/
def tweak_strategy (f : IronCondorFinder) (call_spread put_spread : Option Spread)
    (calls puts : List Contract) : Option (Spread × Spread × Nat) :=
  tweak_go f calls puts (IronCondorFinder.max_tweak_attempts f) call_spread put_spread 0

/-- `IronCondorFinder.find_iron_condor`.  The two `raise Exception(...)`
statements are modelled as `Except.error` with the exception's message;
ordinary returns (`None` or a result tuple) are `Except.ok`. -/
def find_iron_condor (f : IronCondorFinder) (contracts : List Contract)
    (spx_price : ℚ) : Except String (Option (Spread × Spread × Nat)) :=
  let puts :=
    (contracts.filter (fun c => c.right == OptionRight.PUT)).mergeSort
      (fun a b => b.strike ≤ a.strike)
  let calls :=
    (contracts.filter (fun c => c.right == OptionRight.CALL)).mergeSort
      (fun a b => a.strike ≤ b.strike)
  if puts.length < 2 ∨ calls.length < 2 then Except.ok none
  else
    let straddle_price := calculate_straddle_price contracts spx_price
    match find_initial_spread f calls spx_price straddle_price ("CALL") with
    | none => Except.error ("No valid call spread found")
    | some call_spread =>
      match find_initial_spread f puts spx_price straddle_price ("PUT") with
      | none => Except.error ("No valid put spread found")
      | some put_spread =>
        Except.ok (tweak_strategy f (some call_spread) (some put_spread) calls puts)

/-- Scanner of `util.find_spread_with_target_delta`: `full` is the whole
candidate list (the Python `next(...)` generator re-scans it for the long
leg), the last argument is the suffix still to be scanned for a short
leg. -/
def fswtd_go (full : List Contract) (max_delta spread_width : ℚ) (side : String) :
    List Contract → Option Spread
  | [] => none
  | contract :: rest =>
    let delta := |contract.delta|
    if delta > max_delta then fswtd_go full max_delta spread_width side rest
    else
      let long_strike :=
        if side == "call" then contract.strike + spread_width
        else contract.strike - spread_width
      match full.find? (fun c => decide (c.strike = long_strike)) with
      | none => fswtd_go full max_delta spread_width side rest
      | some long_leg =>
        if side == "call" ∧ long_leg.strike ≤ contract.strike then
          fswtd_go full max_delta spread_width side rest
        else if side == "put" ∧ long_leg.strike ≥ contract.strike then
          fswtd_go full max_delta spread_width side rest
        else
          some { short_leg := contract, long_leg := long_leg,
                 price := round2 (contract.bid_price - long_leg.ask_price),
                 delta := delta, side := side.toUpper }

/-- `util.find_spread_with_target_delta`: first contract in list order
whose absolute delta is at most `max_delta` and that admits a long leg
exactly `spread_width` away on the correct side. -/
def find_spread_with_target_delta (contracts : List Contract)
    (max_delta spread_width : ℚ) (side : String) : Option Spread :=
  fswtd_go contracts max_delta spread_width side contracts

/-- The Python `trade` dictionary mutated by `PositionRoller.roll_for_side`:
four leg identifiers, per-side and cumulative credits, derived targets and
the expiry day. -/
structure Trade where
  short_call : Nat
  long_call : Nat
  short_put : Nat
  long_put : Nat
  call_credit : ℚ
  put_credit : ℚ
  entry_credit : ℚ
  cumulative_credit : ℚ
  profit_target : ℚ
  max_loss : ℚ
  expiry : Nat
deriving DecidableEq

/-- The quote lookup `self.algorithm.securities[symbol]` used by the
roller: current ask and bid by contract identifier. -/
structure Env where
  ask : Nat → ℚ
  bid : Nat → ℚ

/-- The Python `best_spreads` dictionary of `roll_for_side`:
`{"tested", "untested", "roll_credit"}`. -/
structure BestSpreads where
  tested : Spread
  untested : Spread
  roll_credit : ℚ
deriving DecidableEq

/-- The cost to close the four currently-open legs at current quotes, as
computed inside the loop of `roll_for_side` (shorts bought back at ask,
longs sold at bid). -/
def close_cost (env : Env) (trade : Trade) (side : String) : ℚ :=
  let current_tested_short_price :=
    env.ask (if side == "call" then trade.short_call else trade.short_put)
  let current_tested_long_price :=
    env.bid (if side == "call" then trade.long_call else trade.long_put)
  let current_untested_short_price :=
    env.ask (if side == "call" then trade.short_put else trade.short_call)
  let current_untested_long_price :=
    env.bid (if side == "call" then trade.long_put else trade.long_call)
  (current_tested_short_price - current_tested_long_price) +
    (current_untested_short_price - current_untested_long_price)

/-- One iteration body of the `for expiry_date in available_expiries`
loop of `roll_for_side`: `none` on any `continue` path, otherwise the
tested and untested replacement spreads together with the roll credit
`new_credit − close_cost`. -/
def evaluate_expiry (env : Env) (f : IronCondorFinder) (chain : List Contract)
    (trade : Trade) (side : String) (spx_price : ℚ) (expiry_date : Nat) :
    Option BestSpreads :=
  let expiry_contracts := chain.filter (fun c => c.expiry == expiry_date)
  if expiry_contracts.length < 4 then none
  else
    let calls :=
      (expiry_contracts.filter (fun c => c.right == OptionRight.CALL)).mergeSort
        (fun a b => a.strike ≤ b.strike)
    let puts :=
      (expiry_contracts.filter (fun c => c.right == OptionRight.PUT)).mergeSort
        (fun a b => b.strike ≤ a.strike)
    if calls.length < 2 ∨ puts.length < 2 then none
    else
      let spread_width := IronCondorFinder.spread_width f
      let tested_spread :=
        if side == "call" then
          find_spread_with_target_delta calls (1/5 : ℚ) spread_width ("call")
        else
          find_spread_with_target_delta puts (1/5 : ℚ) spread_width ("put")
      let untested_spread :=
        if side == "call" then
          find_initial_spread f puts spx_price
            (calculate_straddle_price expiry_contracts spx_price) ("PUT")
        else
          find_initial_spread f calls spx_price
            (calculate_straddle_price expiry_contracts spx_price) ("CALL")
      match tested_spread, untested_spread with
      | some ts, some us =>
          some { tested := ts, untested := us,
                 roll_credit := (ts.price + us.price) - close_cost env trade side }
      | _, _ => none

/-- The running best of `roll_for_side`'s loop: Python's
`best_roll_credit` starts at `−∞` (`none` here) and is replaced exactly
when `roll_credit > best_roll_credit`. -/
def roll_loop (eval : Nat → Option BestSpreads) :
    Option (Nat × BestSpreads) → List Nat → Option (Nat × BestSpreads)
  | acc, [] => acc
  | acc, e :: rest =>
    match eval e with
    | none => roll_loop eval acc rest
    | some bs =>
      let better :=
        match acc with
        | none => true
        | some (_, best) => decide (bs.roll_credit > best.roll_credit)
      roll_loop eval (if better then some (e, bs) else acc) rest

/-- The in-place `trade` mutation block at the end of `roll_for_side`:
replace all four leg identifiers and both per-side credits, set the
expiry from the tested short leg, add the new combined credit to
`cumulative_credit` and recompute `profit_target` and `max_loss`.
The Python ratios `0.6` and `−3.5` are the exact rationals `3/5` and
`−7/2`. -/
def mutate_trade (trade : Trade) (side : String) (best : BestSpreads) : Trade :=
  let tested_spread := best.tested
  let untested_spread := best.untested
  let new_total_credit := tested_spread.price + untested_spread.price
  let t :=
    if side == "call" then
      { trade with
        short_call := tested_spread.short_leg.symbol,
        long_call := tested_spread.long_leg.symbol,
        short_put := untested_spread.short_leg.symbol,
        long_put := untested_spread.long_leg.symbol,
        call_credit := round2 tested_spread.price,
        put_credit := round2 untested_spread.price }
    else
      { trade with
        short_put := tested_spread.short_leg.symbol,
        long_put := tested_spread.long_leg.symbol,
        short_call := untested_spread.short_leg.symbol,
        long_call := untested_spread.long_leg.symbol,
        put_credit := round2 tested_spread.price,
        call_credit := round2 untested_spread.price }
  let cumulative := trade.cumulative_credit + round2 new_total_credit
  { t with
    expiry := tested_spread.short_leg.expiry,
    entry_credit := round2 new_total_credit,
    cumulative_credit := cumulative,
    profit_target := cumulative * (3/5 : ℚ),
    max_loss := cumulative * (-(7/2) : ℚ) }

/-- `PositionRoller.roll_for_side`.  `chainOpt` is the possibly-absent
option chain for the tick; `today` is `self.algorithm.time.date()` as a
day number.  The eight-leg `combo_market_order` submission is an external
side effect and does not influence the returned trade. -/
def roll_for_side (env : Env) (f : IronCondorFinder) (chainOpt : Option (List Contract))
    (trade : Trade) (side : String) (today : Nat) (spx_price : ℚ) : Option Trade :=
  match chainOpt with
  | none => none
  | some chain =>
    let current_expiry := trade.expiry
    let one_week_out := today + 7
    let available_expiries :=
      ((chain.filterMap (fun c =>
          if current_expiry < c.expiry ∧ c.expiry ≤ one_week_out then some c.expiry
          else none)).dedup).mergeSort (fun a b => a ≤ b)
    if available_expiries.isEmpty then none
    else
      match roll_loop (evaluate_expiry env f chain trade side spx_price)
          none available_expiries with
      | none => none
      | some (_, best_spreads) => some (mutate_trade trade side best_spreads)

/-! ### Helper lemmas -/

theorem foldl_min_mem (key : Contract → ℚ) :
    ∀ (cs : List Contract) (c : Contract),
      cs.foldl (fun best x => if key x < key best then x else best) c ∈ c :: cs := by
  intro cs
  induction cs with
  | nil => intro c; simp
  | cons x xs ih =>
    intro c
    have h := ih (if key x < key c then x else c)
    rcases List.mem_cons.mp h with h1 | h1
    · by_cases hk : key x < key c
      · rw [if_pos hk] at h1
        simp [List.foldl_cons, h1, hk]
      · rw [if_neg hk] at h1
        simp [List.foldl_cons, h1, hk]
    · simp only [List.foldl_cons]
      exact List.mem_cons.mpr (Or.inr (List.mem_cons.mpr (Or.inr h1)))

theorem minByKey_mem {key : Contract → ℚ} {l : List Contract} {c : Contract}
    (h : minByKey key l = some c) : c ∈ l := by
  cases l with
  | nil => simp [minByKey] at h
  | cons a as =>
    simp only [minByKey, Option.some.injEq] at h
    have := foldl_min_mem key as a
    rw [h] at this
    exact this

theorem minByKey_getD_mem (key : Contract → ℚ) {l : List Contract} (hl : l ≠ []) :
    (minByKey key l).getD default ∈ l := by
  cases l with
  | nil => exact absurd rfl hl
  | cons a as => exact @minByKey_mem key (a :: as) _ rfl

theorem tweak_go_count_le (f : IronCondorFinder) (calls puts : List Contract) :
    ∀ (fuel : Nat) (cs ps : Option Spread) (k : Nat) (c p : Spread) (n : Nat),
      tweak_go f calls puts fuel cs ps k = some (c, p, n) → n ≤ k + fuel := by
  intro fuel
  induction fuel with
  | zero =>
    intro cs ps k c p n h
    simp [tweak_go] at h
  | succ m ih =>
    intro cs ps k c p n h
    rcases cs with _ | c0
    · simp [tweak_go] at h
    · rcases ps with _ | p0
      · simp [tweak_go] at h
      · simp only [tweak_go] at h
        repeat' split at h
        all_goals
          first
          | (have hle := ih _ _ _ _ _ _ h; omega)
          | (simp only [Option.some.injEq, Prod.mk.injEq] at h; omega)

/-! ### Concrete configurations and spreads for witnesses and counterexamples -/

/-- The default configuration of `IronCondorFinder.__init__` with every
float written as an exact rational. -/
def finderA : IronCondorFinder :=
  { spread_width := 20, min_credit := 21/20, max_credit := 29/20,
    max_call_delta := 2/25, min_call_delta := 3/100, max_put_delta := 1/10,
    min_put_delta := 3/100, max_total_delta := 9/50,
    credit_balance_ratio := 3/5, delta_ratio := 3/5, max_tweak_attempts := 100 }

/-- The default configuration with a balance-ratio threshold above 1. -/
def finderB : IronCondorFinder := { finderA with credit_balance_ratio := 2 }

/-- The default configuration with a tweak budget of zero. -/
def finder0 : IronCondorFinder := { finderA with max_tweak_attempts := 0 }

/-- A call spread whose prices and deltas satisfy all seven checks of
`tweak_strategy` under `finderA` when paired with `spreadPutW`. -/
def spreadCallW : Spread :=
  { short_leg := default, long_leg := default, price := 3/5, delta := 1/20,
    side := "CALL" }

/-- The put spread paired with `spreadCallW`. -/
def spreadPutW : Spread :=
  { short_leg := default, long_leg := default, price := 3/5, delta := 1/20,
    side := "PUT" }

/-! ### C6: balance checks on equal inputs -/

/-- C6 (counterexample): the claim that equal inputs always pass the
balance checks for every ratio threshold > 0 is false on the code: with
equal inputs 0 the `larger == 0` guard returns unbalanced, and with a
threshold above 1 even equal nonzero inputs are unbalanced. -/
theorem equal_inputs_balance_cex :
    (0 : ℚ) < IronCondorFinder.credit_balance_ratio finderA ∧
    is_credit_balanced finderA 0 0 = false ∧
    is_delta_balanced finderA 0 0 = false ∧
    (0 : ℚ) < IronCondorFinder.credit_balance_ratio finderB ∧
    is_credit_balanced finderB 1 1 = false := by
  refine ⟨by norm_num [finderA], ?_, ?_, by norm_num [finderB, finderA], ?_⟩ <;>
    norm_num [is_credit_balanced, is_delta_balanced, finderA, finderB]

/-- C6 (amended): for every equal NONZERO pair of inputs and every ratio
threshold at most 1, the credit-balance and delta-balance checks evaluate
to balanced; an equal pair of zeros evaluates to unbalanced. -/
theorem equal_inputs_balance_amended (f : IronCondorFinder) (x : ℚ) (hx : x ≠ 0)
    (hc : IronCondorFinder.credit_balance_ratio f ≤ 1)
    (hd : IronCondorFinder.delta_ratio f ≤ 1) :
    is_credit_balanced f x x = true ∧ is_delta_balanced f x x = true ∧
    is_credit_balanced f 0 0 = false ∧ is_delta_balanced f 0 0 = false := by
  unfold is_credit_balanced is_delta_balanced
  simp only [min_self, max_self, if_neg hx, div_self hx]
  refine ⟨?_, ?_, by simp, by simp⟩ <;> simpa [ge_iff_le] using ‹_ ≤ (1 : ℚ)›

/-- C6 (witness for the amended theorem) at `x = 1` under the default
configuration. -/
theorem equal_inputs_balance_amended_witness :
    is_credit_balanced finderA 1 1 = true ∧ is_delta_balanced finderA 1 1 = true ∧
    is_credit_balanced finderA 0 0 = false ∧ is_delta_balanced finderA 0 0 = false :=
  equal_inputs_balance_amended finderA 1 (by norm_num)
    (by norm_num [finderA]) (by norm_num [finderA])

/-! ### C7: zero denominators in the balance checks -/

/-- C7: when the larger of the two credits (or deltas) is zero the
balance checks return `false` via the explicit `larger == 0` guard
(the quotient is never formed, so no division fault can occur), and a
zero credit against a positive one is likewise unbalanced whenever the
configured threshold is positive. -/
theorem zero_denominator_balance (f : IronCondorFinder) (cc pc : ℚ) :
    (max cc pc = 0 →
      is_credit_balanced f cc pc = false ∧ is_delta_balanced f cc pc = false) ∧
    (0 < IronCondorFinder.credit_balance_ratio f → 0 < cc →
      is_credit_balanced f cc 0 = false) := by
  constructor
  · intro h
    unfold is_credit_balanced is_delta_balanced
    simp [h]
  · intro hr hc
    unfold is_credit_balanced
    have h1 : max cc 0 = cc := max_eq_left hc.le
    have h2 : min cc 0 = 0 := min_eq_right hc.le
    simp [h1, h2, hc.ne', not_le.mpr hr]

/-- C7 (witness): `put_credit = 0` with a positive call credit, and the
all-zero pair, both evaluate to unbalanced under the default
configuration. -/
theorem zero_denominator_balance_witness :
    is_credit_balanced finderA (1/2) 0 = false ∧
    is_credit_balanced finderA 0 0 = false :=
  ⟨(zero_denominator_balance finderA (1/2) 0).2 (by norm_num [finderA]) (by norm_num),
   ((zero_denominator_balance finderA 0 0).1 (by norm_num)).1⟩

/-! ### C4: the tweak-attempt budget -/

/-- C4: `tweak_strategy` never performs more than `max_tweak_attempts`
iterations — any returned iteration count is at most the budget — and a
budget of zero returns no result immediately (the `while` guard fails
before any check is evaluated). -/
theorem tweak_budget (f : IronCondorFinder) (cs ps : Option Spread)
    (calls puts : List Contract) :
    (∀ c p n, tweak_strategy f cs ps calls puts = some (c, p, n) →
      n ≤ IronCondorFinder.max_tweak_attempts f) ∧
    (IronCondorFinder.max_tweak_attempts f = 0 →
      tweak_strategy f cs ps calls puts = none) := by
  constructor
  · intro c p n h
    have := tweak_go_count_le f calls puts (IronCondorFinder.max_tweak_attempts f)
      cs ps 0 c p n h
    omega
  · intro h
    unfold tweak_strategy
    rw [h]
    simp [tweak_go]

/-- C4 (witness): with the zero-budget configuration `tweak_strategy`
returns no result. -/
theorem tweak_budget_witness :
    tweak_strategy finder0 none none [] [] = none :=
  (tweak_budget finder0 none none [] []).2 rfl

/-! ### C8: idempotence on an already-qualifying pair -/

/-- C8: if the pair already passes all seven checks and the budget is at
least one, a single invocation of `tweak_strategy` returns exactly that
pair unchanged with iteration count 1. -/
theorem tweak_idempotent (f : IronCondorFinder) (cs ps : Spread)
    (calls puts : List Contract)
    (h1 : ¬ cs.price + ps.price < IronCondorFinder.min_credit f)
    (h2 : ¬ cs.price + ps.price > IronCondorFinder.max_credit f)
    (h3 : ¬ cs.delta > IronCondorFinder.max_call_delta f)
    (h4 : ¬ ps.delta > IronCondorFinder.max_put_delta f)
    (h5 : ¬ cs.delta + ps.delta > IronCondorFinder.max_total_delta f)
    (h6 : is_credit_balanced f cs.price ps.price = true)
    (h7 : is_delta_balanced f cs.delta ps.delta = true)
    (hm : 1 ≤ IronCondorFinder.max_tweak_attempts f) :
    tweak_strategy f (some cs) (some ps) calls puts = some (cs, ps, 1) := by
  obtain ⟨m, hm'⟩ : ∃ m, IronCondorFinder.max_tweak_attempts f = m + 1 :=
    ⟨IronCondorFinder.max_tweak_attempts f - 1, by omega⟩
  unfold tweak_strategy
  rw [hm']
  simp only [tweak_go, if_neg h1, if_neg h2, if_neg h3, if_neg h4, if_neg h5, h6, h7]
  simp

/-- C8 (witness): a concrete qualifying pair under the default
configuration is returned unchanged with iteration count 1. -/
theorem tweak_idempotent_witness :
    tweak_strategy finderA (some spreadCallW) (some spreadPutW) [] [] =
      some (spreadCallW, spreadPutW, 1) := by
  apply tweak_idempotent <;>
    norm_num [spreadCallW, spreadPutW, finderA, is_credit_balanced, is_delta_balanced]

/-! ### C5: long-leg invariant and credit formula of the spread builders -/

theorem pick_contract_mem {l : List Contract} (t : ℚ) (hl : l ≠ []) :
    pick_contract l t ∈ l := by
  unfold pick_contract
  cases hfind : l.find? (fun c => decide (c.strike = t)) with
  | some c => simpa using List.mem_of_find?_eq_some hfind
  | none => simpa using minByKey_getD_mem _ hl

/-- C5: every successful output of `build_spread`, and of
`find_initial_spread` when `spread_width > 0`, has its long leg strictly
farther from at-the-money than its short leg (CALL: long strike above the
short strike, PUT: below), and its price is exactly
`round2 (short.bid − long.ask)`. -/
theorem spread_builder_invariant (f : IronCondorFinder) (contracts : List Contract)
    (short_strike spx_price straddle_price : ℚ) (side : String) :
    (∀ sp : Spread, build_spread f contracts short_strike side = some sp →
      (side = "CALL" → sp.short_leg.strike < sp.long_leg.strike) ∧
      (side = "PUT" → sp.long_leg.strike < sp.short_leg.strike) ∧
      sp.price = round2 (sp.short_leg.bid_price - sp.long_leg.ask_price)) ∧
    (0 < IronCondorFinder.spread_width f →
      ∀ sp : Spread,
        find_initial_spread f contracts spx_price straddle_price side = some sp →
        (side = "CALL" → sp.short_leg.strike < sp.long_leg.strike) ∧
        (side = "PUT" → sp.long_leg.strike < sp.short_leg.strike) ∧
        sp.price = round2 (sp.short_leg.bid_price - sp.long_leg.ask_price)) := by
  constructor
  · intro sp h
    simp only [build_spread] at h
    repeat' split at h
    any_goals exact Option.noConfusion h
    · rename_i hemp hcall hvl
      rw [Option.some.injEq] at h
      subst h
      refine ⟨?_, ?_, rfl⟩
      · intro _
        have hmem := @pick_contract_mem
          (contracts.filter (fun c =>
            decide (c.strike > (pick_contract contracts short_strike).strike)))
          ((pick_contract contracts short_strike).strike + IronCondorFinder.spread_width f)
          (fun hnil => hvl (by simp [hnil]))
        have hb := List.of_mem_filter hmem
        simpa using hb
      · intro hside
        subst hside
        simp at hcall
    · rename_i hemp hcall hvl
      rw [Option.some.injEq] at h
      subst h
      refine ⟨?_, ?_, rfl⟩
      · intro hside
        subst hside
        simp at hcall
      · intro _
        have hmem := @pick_contract_mem
          (contracts.filter (fun c =>
            decide (c.strike < (pick_contract contracts short_strike).strike)))
          ((pick_contract contracts short_strike).strike - IronCondorFinder.spread_width f)
          (fun hnil => hvl (by simp [hnil]))
        have hb := List.of_mem_filter hmem
        simpa using hb
  · intro hw sp h
    simp only [find_initial_spread] at h
    split at h
    · exact Option.noConfusion h
    · rename_i long_leg hfind
      rw [Option.some.injEq] at h
      subst h
      have hfd := List.find?_some hfind
      simp only [decide_eq_true_eq] at hfd
      refine ⟨?_, ?_, rfl⟩
      · intro hside
        subst hside
        simp only [beq_self_eq_true, if_true] at hfd ⊢
        rw [hfd]
        linarith
      · intro hside
        subst hside
        simp only [show (("PUT" : String) == "CALL") = false from rfl,
          Bool.false_eq_true, if_false] at hfd ⊢
        rw [hfd]
        linarith

/-- A call contract at strike 100 used by the builder witness. -/
def cW1 : Contract :=
  { symbol := 1, strike := 100, bid_price := 3/2, ask_price := 2, delta := 1/10,
    expiry := 5, right := OptionRight.CALL }

/-- A call contract at strike 120 used by the builder witness. -/
def cW2 : Contract :=
  { symbol := 2, strike := 120, bid_price := 1/2, ask_price := 1, delta := 1/20,
    expiry := 5, right := OptionRight.CALL }

/-- The call spread both builders produce from `[cW1, cW2]`. -/
def spW : Spread :=
  { short_leg := cW1, long_leg := cW2, price := 1/2, delta := 1/10, side := "CALL" }

/-- C5 (witness): concrete successful builds on the two-contract call list
`[cW1, cW2]` satisfy the long-leg and credit invariants. -/
theorem spread_builder_invariant_witness :
    (spW.short_leg.strike < spW.long_leg.strike ∧
      spW.price = round2 (spW.short_leg.bid_price - spW.long_leg.ask_price)) ∧
    (spW.short_leg.strike < spW.long_leg.strike ∧
      spW.price = round2 (spW.short_leg.bid_price - spW.long_leg.ask_price)) := by
  have hbuild : build_spread finderA [cW1, cW2] 100 ("CALL") = some spW := by
    norm_num [build_spread, pick_contract, minByKey, List.find?, List.filter,
      cW1, cW2, spW, finderA, round2, round_eq]
  have hfind : find_initial_spread finderA [cW1, cW2] 90 5 ("CALL") = some spW := by
    norm_num [find_initial_spread, pick_contract, minByKey, List.find?,
      cW1, cW2, spW, finderA, round2, round_eq]
  constructor
  · have h := (spread_builder_invariant finderA [cW1, cW2] 100 90 5 ("CALL")).1 spW hbuild
    exact ⟨h.1 rfl, h.2.2⟩
  · have h := (spread_builder_invariant finderA [cW1, cW2] 100 90 5 ("CALL")).2
      (by norm_num [finderA]) spW hfind
    exact ⟨h.1 rfl, h.2.2⟩

/-! ### C10: the accepted but unused `min_call_delta` / `min_put_delta` options -/

theorem build_spread_min_delta_upd (f : IronCondorFinder) (a b : ℚ)
    (contracts : List Contract) (short_strike : ℚ) (side : String) :
    build_spread { f with min_call_delta := a, min_put_delta := b }
        contracts short_strike side
      = build_spread f contracts short_strike side := rfl

theorem move_spread_up_min_delta_upd (f : IronCondorFinder) (a b : ℚ)
    (spread : Spread) (contracts : List Contract) (points : ℚ) :
    move_spread_up { f with min_call_delta := a, min_put_delta := b }
        spread contracts points
      = move_spread_up f spread contracts points := rfl

theorem move_spread_away_min_delta_upd (f : IronCondorFinder) (a b : ℚ)
    (spread : Spread) (contracts : List Contract) (points : ℚ) :
    move_spread_away { f with min_call_delta := a, min_put_delta := b }
        spread contracts points
      = move_spread_away f spread contracts points := rfl

theorem is_credit_balanced_min_delta_upd (f : IronCondorFinder) (a b x y : ℚ) :
    is_credit_balanced { f with min_call_delta := a, min_put_delta := b } x y
      = is_credit_balanced f x y := rfl

theorem is_delta_balanced_min_delta_upd (f : IronCondorFinder) (a b x y : ℚ) :
    is_delta_balanced { f with min_call_delta := a, min_put_delta := b } x y
      = is_delta_balanced f x y := rfl

theorem find_initial_spread_min_delta_upd (f : IronCondorFinder) (a b : ℚ)
    (contracts : List Contract) (spx_price straddle_price : ℚ) (side : String) :
    find_initial_spread { f with min_call_delta := a, min_put_delta := b }
        contracts spx_price straddle_price side
      = find_initial_spread f contracts spx_price straddle_price side := rfl

theorem tweak_go_min_delta_upd (f : IronCondorFinder) (a b : ℚ)
    (calls puts : List Contract) :
    ∀ (fuel : Nat) (cs ps : Option Spread) (k : Nat),
      tweak_go { f with min_call_delta := a, min_put_delta := b }
          calls puts fuel cs ps k
        = tweak_go f calls puts fuel cs ps k := by
  intro fuel
  induction fuel with
  | zero => intro cs ps k; rfl
  | succ m ih =>
    intro cs ps k
    rcases cs with _ | c0
    · rfl
    · rcases ps with _ | p0
      · rfl
      · simp only [tweak_go, move_spread_up_min_delta_upd,
          move_spread_away_min_delta_upd, is_credit_balanced_min_delta_upd,
          is_delta_balanced_min_delta_upd, ih]

/-- C10: `find_iron_condor` is invariant under changing `min_call_delta`
and `min_put_delta` — the two options are stored by `__init__` but read
by no constraint check or spread move, so two configurations differing
only there produce identical results (the same holds for
`tweak_strategy`) on every contract set and spot price. -/
theorem find_iron_condor_min_delta_independent (f : IronCondorFinder) (a b : ℚ)
    (contracts : List Contract) (spx_price : ℚ) :
    find_iron_condor { f with min_call_delta := a, min_put_delta := b }
        contracts spx_price
      = find_iron_condor f contracts spx_price := by
  have hts : ∀ (cs ps : Option Spread) (calls puts : List Contract),
      tweak_strategy { f with min_call_delta := a, min_put_delta := b }
          cs ps calls puts
        = tweak_strategy f cs ps calls puts := by
    intro cs ps calls puts
    unfold tweak_strategy
    exact tweak_go_min_delta_upd f a b calls puts _ cs ps 0
  unfold find_iron_condor
  simp only [find_initial_spread_min_delta_upd, hts]

/-- Computation fact: the derived equality test on `OptionRight`. -/
theorem beq_call_put_eq : (OptionRight.CALL == OptionRight.PUT) = false := rfl

/-- Computation fact: the derived equality test on `OptionRight`. -/
theorem beq_put_put_eq : (OptionRight.PUT == OptionRight.PUT) = true := rfl

/-- Computation fact: the derived equality test on `OptionRight`. -/
theorem beq_call_call_eq : (OptionRight.CALL == OptionRight.CALL) = true := rfl

/-- Computation fact: the derived equality test on `OptionRight`. -/
theorem beq_put_call_eq : (OptionRight.PUT == OptionRight.CALL) = false := rfl

/-- Computation fact: the string comparison of the two side tags. -/
theorem beq_put_call_str : (("PUT" : String) == "CALL") = false := by decide

/-- Computation fact: the string comparison of the two side tags. -/
theorem beq_put_str_self : (("PUT" : String) == "PUT") = true := by decide

/-! ### C1: the no-candidate path of `find_iron_condor` raises -/

/-- Call at strike 100 for the raise example. -/
def cE1 : Contract :=
  { symbol := 1, strike := 100, bid_price := 1, ask_price := 2, delta := 1/2,
    expiry := 5, right := OptionRight.CALL }

/-- Call at strike 101 for the raise example (no call 20 points above it). -/
def cE2 : Contract :=
  { symbol := 2, strike := 101, bid_price := 1, ask_price := 1, delta := 2/5,
    expiry := 5, right := OptionRight.CALL }

/-- Put at strike 100 for the raise example. -/
def cE3 : Contract :=
  { symbol := 3, strike := 100, bid_price := 1, ask_price := 2, delta := -(1/2),
    expiry := 5, right := OptionRight.PUT }

/-- Put at strike 99 for the raise example. -/
def cE4 : Contract :=
  { symbol := 4, strike := 99, bid_price := 1, ask_price := 1, delta := -(2/5),
    expiry := 5, right := OptionRight.PUT }

/-- C1: with two calls and two puts but no call contract `spread_width`
above the chosen short call, `find_initial_spread` finds no long leg and
`find_iron_condor` surfaces this as a raised exception
(`raise Exception("No valid call spread found")`), not as an ordinary
absence-of-result `None` — even though its own docstring promises
"`else None`" and the `return None` guard right below the raise is
unreachable. -/
theorem find_iron_condor_raises_cex :
    find_iron_condor finderA [cE1, cE2, cE3, cE4] 100 =
      Except.error ("No valid call spread found") := by
  norm_num [find_iron_condor, find_initial_spread, pick_contract, minByKey,
    calculate_straddle_price, List.find?, List.filter, List.mergeSort,
    List.merge, cE1, cE2, cE3, cE4, finderA, round_eq, abs,
    beq_call_put_eq, beq_put_put_eq, beq_call_call_eq, beq_put_call_eq]

/-! ### The roll engine: shared shape lemma -/

/-- Any successful `roll_for_side` result is `mutate_trade` applied to the
winner of the loop over the window's expirations. -/
theorem roll_success_shape (env : Env) (f : IronCondorFinder) (chain : List Contract)
    (trade : Trade) (side : String) (today : Nat) (spx_price : ℚ) :
    ∀ tr', roll_for_side env f (some chain) trade side today spx_price = some tr' →
      ∃ e bs, roll_loop (evaluate_expiry env f chain trade side spx_price) none
          (((chain.filterMap (fun c =>
            if trade.expiry < c.expiry ∧ c.expiry ≤ today + 7 then some c.expiry
            else none)).dedup).mergeSort (fun a b => a ≤ b)) = some (e, bs) ∧
        tr' = mutate_trade trade side bs := by
  intro tr' h
  simp only [roll_for_side] at h
  split at h
  · exact Option.noConfusion h
  · split at h
    · exact Option.noConfusion h
    · rename_i e bs heq
      rw [Option.some.injEq] at h
      exact ⟨e, bs, heq, h.symm⟩

/-! ### C3: credits and derived targets after a successful roll -/

/-- C3 (amended): a successful roll adds the (rounded) new combined
credit of the two replacement spreads to `cumulative_credit` — a strict
increase exactly when that credit is positive; it can be zero or negative
— and recomputes `profit_target = cumulative_credit × 0.6` and
`max_loss = cumulative_credit × (−3.5)` from the new value. -/
theorem roll_updates_credit_targets (env : Env) (f : IronCondorFinder)
    (chainOpt : Option (List Contract)) (trade : Trade) (side : String)
    (today : Nat) (spx_price : ℚ) :
    ∀ tr', roll_for_side env f chainOpt trade side today spx_price = some tr' →
      tr'.cumulative_credit = trade.cumulative_credit + tr'.entry_credit ∧
      tr'.profit_target = tr'.cumulative_credit * (3/5 : ℚ) ∧
      tr'.max_loss = tr'.cumulative_credit * (-(7/2) : ℚ) ∧
      (0 < tr'.entry_credit →
        trade.cumulative_credit < tr'.cumulative_credit) := by
  intro tr' h
  rcases chainOpt with _ | chain
  · exact Option.noConfusion h
  · obtain ⟨e, bs, _, rfl⟩ := roll_success_shape env f chain trade side today spx_price tr' h
    refine ⟨?_, ?_, ?_, ?_⟩ <;> simp [mutate_trade]

/-! ### C9: the roll engine's candidate filter and maximisation -/

theorem roll_loop_eq_none (eval : Nat → Option BestSpreads) :
    ∀ (l : List Nat) (acc : Option (Nat × BestSpreads)),
      roll_loop eval acc l = none ↔ acc = none ∧ ∀ e ∈ l, eval e = none := by
  intro l
  induction l with
  | nil => intro acc; simp [roll_loop]
  | cons e rest ih =>
    intro acc
    cases he : eval e with
    | none =>
      simp [roll_loop, he, ih, List.forall_mem_cons]
    | some bs =>
      rcases acc with _ | ⟨e0, b0⟩
      · simp [roll_loop, he, ih, List.forall_mem_cons]
      · by_cases hbet : bs.roll_credit > b0.roll_credit
        · simp [roll_loop, he, hbet, ih, List.forall_mem_cons]
        · simp [roll_loop, he, hbet, ih, List.forall_mem_cons]

theorem roll_loop_result (eval : Nat → Option BestSpreads) :
    ∀ (l : List Nat) (acc : Option (Nat × BestSpreads)) (e : Nat) (bs : BestSpreads),
      roll_loop eval acc l = some (e, bs) →
      (acc = some (e, bs) ∨ (e ∈ l ∧ eval e = some bs)) ∧
      (∀ x ∈ l, ∀ bx, eval x = some bx → bx.roll_credit ≤ bs.roll_credit) ∧
      (∀ e0 b0, acc = some (e0, b0) → b0.roll_credit ≤ bs.roll_credit) := by
  intro l
  induction l with
  | nil =>
    intro acc e bs h
    simp only [roll_loop] at h
    refine ⟨Or.inl h, by simp, ?_⟩
    intro e0 b0 h0
    rw [h] at h0
    rw [Option.some.injEq, Prod.mk.injEq] at h0
    rw [h0.2]
  | cons x rest ih =>
    intro acc e bs h
    cases hx : eval x with
    | none =>
      rw [roll_loop, hx] at h
      obtain ⟨h1, h2, h3⟩ := ih acc e bs h
      refine ⟨?_, ?_, h3⟩
      · rcases h1 with h1 | ⟨hmem, hev⟩
        · exact Or.inl h1
        · exact Or.inr ⟨List.mem_cons_of_mem x hmem, hev⟩
      · intro y hy by0 hby
        rcases List.mem_cons.mp hy with rfl | hy'
        · rw [hx] at hby; exact Option.noConfusion hby
        · exact h2 y hy' by0 hby
    | some b1 =>
      rw [roll_loop, hx] at h
      obtain ⟨h1, h2, h3⟩ := ih _ e bs h
      have hb1 : b1.roll_credit ≤ bs.roll_credit := by
        rcases acc with _ | ⟨e0, b0⟩
        · exact h3 x b1 (by simp)
        · by_cases hbet : b1.roll_credit > b0.roll_credit
          · exact h3 x b1 (by simp [hbet])
          · have hb0 : b0.roll_credit ≤ bs.roll_credit := h3 e0 b0 (by simp [hbet])
            linarith [not_lt.mp hbet, hb0]
      refine ⟨?_, ?_, ?_⟩
      · rcases acc with _ | ⟨e0, b0⟩
        · rcases h1 with h1 | ⟨hmem, hev⟩
          · simp at h1
            obtain ⟨rfl, rfl⟩ := h1
            exact Or.inr ⟨List.mem_cons_self _ _, hx⟩
          · exact Or.inr ⟨List.mem_cons_of_mem x hmem, hev⟩
        · by_cases hbet : b1.roll_credit > b0.roll_credit
          · rcases h1 with h1 | ⟨hmem, hev⟩
            · simp [hbet] at h1
              obtain ⟨rfl, rfl⟩ := h1
              exact Or.inr ⟨List.mem_cons_self _ _, hx⟩
            · exact Or.inr ⟨List.mem_cons_of_mem x hmem, hev⟩
          · rcases h1 with h1 | ⟨hmem, hev⟩
            · simp [hbet] at h1
              obtain ⟨rfl, rfl⟩ := h1
              exact Or.inl rfl
            · exact Or.inr ⟨List.mem_cons_of_mem x hmem, hev⟩
      · intro y hy by0 hby
        rcases List.mem_cons.mp hy with rfl | hy'
        · rw [hx] at hby
          rw [Option.some.injEq] at hby
          rw [← hby]
          exact hb1
        · exact h2 y hy' by0 hby
      · intro e0 b0 h0
        subst h0
        by_cases hbet : b1.roll_credit > b0.roll_credit
        · linarith
        · exact h3 e0 b0 (by simp [hbet])

/-- The eligibility the spec states for a roll candidate expiration:
listed in the chain, strictly after the current expiry, within the
7-calendar-day horizon, and accepted by the loop body (enough contracts
on both sides and both replacement spreads buildable). -/
def rollQualifies (env : Env) (f : IronCondorFinder) (chain : List Contract)
    (trade : Trade) (side : String) (spx_price : ℚ) (today : Nat) (e : Nat) : Prop :=
  (∃ c ∈ chain, c.expiry = e) ∧
  trade.expiry < e ∧ e ≤ today + 7 ∧
  evaluate_expiry env f chain trade side spx_price e ≠ none

theorem mem_available_iff (chain : List Contract) (trade : Trade) (today : Nat)
    (e : Nat) :
    e ∈ ((chain.filterMap (fun c =>
        if trade.expiry < c.expiry ∧ c.expiry ≤ today + 7 then some c.expiry
        else none)).dedup).mergeSort (fun a b => a ≤ b) ↔
      (∃ c ∈ chain, c.expiry = e) ∧ trade.expiry < e ∧ e ≤ today + 7 := by
  rw [List.mem_mergeSort, List.mem_dedup, List.mem_filterMap]
  constructor
  · rintro ⟨c, hc, hfc⟩
    by_cases hcond : trade.expiry < c.expiry ∧ c.expiry ≤ today + 7
    · rw [if_pos hcond, Option.some.injEq] at hfc
      subst hfc
      exact ⟨⟨c, hc, rfl⟩, hcond.1, hcond.2⟩
    · rw [if_neg hcond] at hfc
      exact Option.noConfusion hfc
  · rintro ⟨⟨c, hc, rfl⟩, h1, h2⟩
    exact ⟨c, hc, by rw [if_pos ⟨h1, h2⟩]⟩

theorem evaluate_expiry_some_iff (env : Env) (f : IronCondorFinder)
    (chain : List Contract) (trade : Trade) (side : String) (spx_price : ℚ)
    (e : Nat) (bs : BestSpreads) :
    evaluate_expiry env f chain trade side spx_price e = some bs ↔
      (4 ≤ (chain.filter (fun c => c.expiry == e)).length ∧
       2 ≤ ((chain.filter (fun c => c.expiry == e)).filter
              (fun c => c.right == OptionRight.CALL)).length ∧
       2 ≤ ((chain.filter (fun c => c.expiry == e)).filter
              (fun c => c.right == OptionRight.PUT)).length ∧
       ∃ ts us,
         (if side == "call" then
            find_spread_with_target_delta
              (((chain.filter (fun c => c.expiry == e)).filter
                  (fun c => c.right == OptionRight.CALL)).mergeSort
                (fun a b => a.strike ≤ b.strike))
              (1/5 : ℚ) (IronCondorFinder.spread_width f) ("call")
          else
            find_spread_with_target_delta
              (((chain.filter (fun c => c.expiry == e)).filter
                  (fun c => c.right == OptionRight.PUT)).mergeSort
                (fun a b => b.strike ≤ a.strike))
              (1/5 : ℚ) (IronCondorFinder.spread_width f) ("put")) = some ts ∧
         (if side == "call" then
            find_initial_spread f
              (((chain.filter (fun c => c.expiry == e)).filter
                  (fun c => c.right == OptionRight.PUT)).mergeSort
                (fun a b => b.strike ≤ a.strike))
              spx_price
              (calculate_straddle_price (chain.filter (fun c => c.expiry == e))
                spx_price) ("PUT")
          else
            find_initial_spread f
              (((chain.filter (fun c => c.expiry == e)).filter
                  (fun c => c.right == OptionRight.CALL)).mergeSort
                (fun a b => a.strike ≤ b.strike))
              spx_price
              (calculate_straddle_price (chain.filter (fun c => c.expiry == e))
                spx_price) ("CALL")) = some us ∧
         bs = { tested := ts, untested := us,
                roll_credit := (ts.price + us.price) - close_cost env trade side }) := by
  simp only [evaluate_expiry]
  split
  · rename_i h4
    constructor
    · intro h; exact absurd h (by simp)
    · rintro ⟨hlen, -⟩; omega
  · rename_i h4
    split
    · rename_i h2
      rw [List.length_mergeSort, List.length_mergeSort] at h2
      constructor
      · intro h; exact absurd h (by simp)
      · rintro ⟨-, hc2, hp2, -⟩; rcases h2 with h2 | h2 <;> omega
    · rename_i h2
      rw [not_or, List.length_mergeSort, List.length_mergeSort] at h2
      split
      · rename_i ts us hts hus
        constructor
        · intro h
          rw [Option.some.injEq] at h
          exact ⟨by omega, by omega, by omega, ts, us, hts, hus, h.symm⟩
        · rintro ⟨-, -, -, ts', us', hts', hus', rfl⟩
          rw [hts, Option.some.injEq] at hts'
          rw [hus, Option.some.injEq] at hus'
          rw [hts', hus']
      · rename_i hnone
        constructor
        · intro h; exact Option.noConfusion h
        · rintro ⟨-, -, -, ts', us', hts', hus', -⟩
          exact (hnone ts' us' hts' hus').elim

/-! ### C2: what a successful roll replaces -/

/-- C2 (amended): a successful `roll_for_side` replaces ALL FOUR leg
identifiers and both per-side credits, rather than holding the untested
side: for some expiration in the `(expiry, today+7]` window, the tested
side's legs and credit come from the target-delta spread built on that
expiration's sorted candidates, the untested side's from the freshly
built 2-sigma spread against that expiration's own straddle price, and
the trade's expiry is set from the replacement tested short leg. -/
theorem roll_replaces_all_four (env : Env) (f : IronCondorFinder)
    (chain : List Contract) (trade : Trade) (side : String)
    (today : Nat) (spx_price : ℚ) :
    ∀ tr', roll_for_side env f (some chain) trade side today spx_price = some tr' →
      ∃ e ts us,
        trade.expiry < e ∧ e ≤ today + 7 ∧
        (if side == "call" then
           find_spread_with_target_delta
             (((chain.filter (fun c => c.expiry == e)).filter
                 (fun c => c.right == OptionRight.CALL)).mergeSort
               (fun a b => a.strike ≤ b.strike))
             (1/5 : ℚ) (IronCondorFinder.spread_width f) ("call")
         else
           find_spread_with_target_delta
             (((chain.filter (fun c => c.expiry == e)).filter
                 (fun c => c.right == OptionRight.PUT)).mergeSort
               (fun a b => b.strike ≤ a.strike))
             (1/5 : ℚ) (IronCondorFinder.spread_width f) ("put")) = some ts ∧
        (if side == "call" then
           find_initial_spread f
             (((chain.filter (fun c => c.expiry == e)).filter
                 (fun c => c.right == OptionRight.PUT)).mergeSort
               (fun a b => b.strike ≤ a.strike))
             spx_price
             (calculate_straddle_price (chain.filter (fun c => c.expiry == e))
               spx_price) ("PUT")
         else
           find_initial_spread f
             (((chain.filter (fun c => c.expiry == e)).filter
                 (fun c => c.right == OptionRight.CALL)).mergeSort
               (fun a b => a.strike ≤ b.strike))
             spx_price
             (calculate_straddle_price (chain.filter (fun c => c.expiry == e))
               spx_price) ("CALL")) = some us ∧
        tr'.expiry = ts.short_leg.expiry ∧
        (side = "call" →
          tr'.short_call = ts.short_leg.symbol ∧
          tr'.long_call = ts.long_leg.symbol ∧
          tr'.short_put = us.short_leg.symbol ∧
          tr'.long_put = us.long_leg.symbol ∧
          tr'.call_credit = round2 ts.price ∧
          tr'.put_credit = round2 us.price) ∧
        (side ≠ "call" →
          tr'.short_put = ts.short_leg.symbol ∧
          tr'.long_put = ts.long_leg.symbol ∧
          tr'.short_call = us.short_leg.symbol ∧
          tr'.long_call = us.long_leg.symbol ∧
          tr'.put_credit = round2 ts.price ∧
          tr'.call_credit = round2 us.price) := by
  intro tr' h
  obtain ⟨e, bs, hloop, rfl⟩ :=
    roll_success_shape env f chain trade side today spx_price tr' h
  obtain ⟨h1, -, -⟩ := roll_loop_result _ _ none e bs hloop
  rcases h1 with h1 | ⟨hmem, hev⟩
  · exact Option.noConfusion h1
  · obtain ⟨-, hw1, hw2⟩ := (mem_available_iff chain trade today e).mp hmem
    obtain ⟨-, -, -, ts, us, hts, hus, rfl⟩ :=
      (evaluate_expiry_some_iff env f chain trade side spx_price e bs).mp hev
    refine ⟨e, ts, us, hw1, hw2, hts, hus, by simp [mutate_trade], ?_, ?_⟩
    · intro hside
      subst hside
      simp [mutate_trade]
    · intro hside
      have hbeq : (side == "call") = false := by
        simpa [beq_iff_eq] using hside
      simp [mutate_trade, hbeq]

/-- C9: the roll engine considers exactly the chain's expirations that
are strictly after the trade's expiry, at most 7 days after today, have
at least 4 contracts with at least 2 calls and 2 puts, and admit both a
target-delta tested spread and a 2-sigma untested spread (first
conjunct, unfolding the loop body); it returns no result exactly when no
expiration qualifies (second conjunct); and any successful result comes
from a qualifying expiration whose roll credit — new combined credit
minus the cost to close the four open legs — is maximal among all
qualifying expirations (third conjunct). -/
theorem roll_for_side_considers_and_maximises (env : Env) (f : IronCondorFinder)
    (chain : List Contract) (trade : Trade) (side : String) (today : Nat)
    (spx_price : ℚ) :
    (∀ e bs, evaluate_expiry env f chain trade side spx_price e = some bs ↔
      (4 ≤ (chain.filter (fun c => c.expiry == e)).length ∧
       2 ≤ ((chain.filter (fun c => c.expiry == e)).filter
              (fun c => c.right == OptionRight.CALL)).length ∧
       2 ≤ ((chain.filter (fun c => c.expiry == e)).filter
              (fun c => c.right == OptionRight.PUT)).length ∧
       ∃ ts us,
         (if side == "call" then
            find_spread_with_target_delta
              (((chain.filter (fun c => c.expiry == e)).filter
                  (fun c => c.right == OptionRight.CALL)).mergeSort
                (fun a b => a.strike ≤ b.strike))
              (1/5 : ℚ) (IronCondorFinder.spread_width f) ("call")
          else
            find_spread_with_target_delta
              (((chain.filter (fun c => c.expiry == e)).filter
                  (fun c => c.right == OptionRight.PUT)).mergeSort
                (fun a b => b.strike ≤ a.strike))
              (1/5 : ℚ) (IronCondorFinder.spread_width f) ("put")) = some ts ∧
         (if side == "call" then
            find_initial_spread f
              (((chain.filter (fun c => c.expiry == e)).filter
                  (fun c => c.right == OptionRight.PUT)).mergeSort
                (fun a b => b.strike ≤ a.strike))
              spx_price
              (calculate_straddle_price (chain.filter (fun c => c.expiry == e))
                spx_price) ("PUT")
          else
            find_initial_spread f
              (((chain.filter (fun c => c.expiry == e)).filter
                  (fun c => c.right == OptionRight.CALL)).mergeSort
                (fun a b => a.strike ≤ b.strike))
              spx_price
              (calculate_straddle_price (chain.filter (fun c => c.expiry == e))
                spx_price) ("CALL")) = some us ∧
         bs = { tested := ts, untested := us,
                roll_credit := (ts.price + us.price) - close_cost env trade side })) ∧
    (roll_for_side env f (some chain) trade side today spx_price = none ↔
      ∀ e, ¬ rollQualifies env f chain trade side spx_price today e) ∧
    (∀ tr', roll_for_side env f (some chain) trade side today spx_price = some tr' →
      ∃ e bs, rollQualifies env f chain trade side spx_price today e ∧
        evaluate_expiry env f chain trade side spx_price e = some bs ∧
        (∀ e' bs', rollQualifies env f chain trade side spx_price today e' →
          evaluate_expiry env f chain trade side spx_price e' = some bs' →
          bs'.roll_credit ≤ bs.roll_credit) ∧
        tr' = mutate_trade trade side bs) := by
  refine ⟨fun e bs => evaluate_expiry_some_iff env f chain trade side spx_price e bs,
    ?_, ?_⟩
  · constructor
    · intro hnone e hq
      obtain ⟨hex, h1, h2, hne⟩ := hq
      have hmem := (mem_available_iff chain trade today e).mpr ⟨hex, h1, h2⟩
      simp only [roll_for_side] at hnone
      split at hnone
      · rename_i hemp
        rw [List.isEmpty_iff] at hemp
        rw [hemp] at hmem
        exact absurd hmem (List.not_mem_nil e)
      · split at hnone
        · rename_i hloop
          exact hne (((roll_loop_eq_none _ _ none).mp hloop).2 e hmem)
        · exact Option.noConfusion hnone
    · intro hq
      simp only [roll_for_side]
      cases hloop : roll_loop (evaluate_expiry env f chain trade side spx_price)
          none (((chain.filterMap (fun c =>
            if trade.expiry < c.expiry ∧ c.expiry ≤ today + 7 then some c.expiry
            else none)).dedup).mergeSort (fun a b => a ≤ b)) with
      | none => simp [hloop]
      | some pair =>
        obtain ⟨e0, bs0⟩ := pair
        obtain ⟨h1, h2, h3⟩ := roll_loop_result _ _ none e0 bs0 hloop
        rcases h1 with h1 | ⟨hmem, hev⟩
        · exact Option.noConfusion h1
        · obtain ⟨hex, hw1, hw2⟩ := (mem_available_iff chain trade today e0).mp hmem
          exact absurd ⟨hex, hw1, hw2, by simp [hev]⟩ (hq e0)
  · intro tr' h
    obtain ⟨e, bs, hloop, rfl⟩ :=
      roll_success_shape env f chain trade side today spx_price tr' h
    obtain ⟨h1, h2, h3⟩ := roll_loop_result _ _ none e bs hloop
    rcases h1 with h1 | ⟨hmem, hev⟩
    · exact Option.noConfusion h1
    · obtain ⟨hex, hw1, hw2⟩ := (mem_available_iff chain trade today e).mp hmem
      refine ⟨e, bs, ⟨hex, hw1, hw2, by simp [hev]⟩, hev, ?_, rfl⟩
      intro e' bs' hq' hev'
      obtain ⟨hex', hw1', hw2', -⟩ := hq'
      have hmem' := (mem_available_iff chain trade today e').mpr ⟨hex', hw1', hw2'⟩
      exact h2 e' hmem' bs' hev'

/-! ### A concrete roll scenario: two candidate expirations, day 12 and day 14 -/

/-- The roll scenario's finder: default configuration with a 5-point
spread width. -/
def finderR : IronCondorFinder := { finderA with spread_width := 5 }

/-- The open trade being rolled: legs 11/12/13/14, expiry day 10. -/
def trade0 : Trade :=
  { short_call := 11, long_call := 12, short_put := 13, long_put := 14,
    call_credit := 11/20, put_credit := 2/5, entry_credit := 21/20,
    cumulative_credit := 2, profit_target := 6/5, max_loss := -7, expiry := 10 }

/-- Current quotes for the open legs: closing the four legs costs 9/10. -/
def env0 : Env :=
  { ask := fun s => if s = 11 then 4/5 else 3/10, bid := fun _ => 1/10 }

/-- Day-12 call, strike 100 (at the money, delta too high to be a short leg). -/
def c12a : Contract :=
  { symbol := 21, strike := 100, bid_price := 2, ask_price := 2, delta := 1/2,
    expiry := 12, right := OptionRight.CALL }

/-- Day-12 call, strike 105 (the tested short leg on day 12). -/
def c12b : Contract :=
  { symbol := 22, strike := 105, bid_price := 1, ask_price := 3/2, delta := 3/20,
    expiry := 12, right := OptionRight.CALL }

/-- Day-12 call, strike 110 (the tested long leg on day 12). -/
def c12c : Contract :=
  { symbol := 23, strike := 110, bid_price := 1/2, ask_price := 2, delta := 1/20,
    expiry := 12, right := OptionRight.CALL }

/-- Day-12 put, strike 100 (at the money). -/
def p12a : Contract :=
  { symbol := 24, strike := 100, bid_price := 1, ask_price := 2, delta := -(1/2),
    expiry := 12, right := OptionRight.PUT }

/-- Day-12 put, strike 95. -/
def p12b : Contract :=
  { symbol := 25, strike := 95, bid_price := 1, ask_price := 1/2, delta := -(3/10),
    expiry := 12, right := OptionRight.PUT }

/-- Day-12 put, strike 90 (the untested short leg on day 12). -/
def p12c : Contract :=
  { symbol := 26, strike := 90, bid_price := 1, ask_price := 1/2, delta := -(1/5),
    expiry := 12, right := OptionRight.PUT }

/-- Day-12 put, strike 85 (the untested long leg on day 12). -/
def p12d : Contract :=
  { symbol := 27, strike := 85, bid_price := 1/10, ask_price := 1/2, delta := -(1/10),
    expiry := 12, right := OptionRight.PUT }

/-- Day-14 call, strike 100 (at the money). -/
def c14a : Contract :=
  { symbol := 31, strike := 100, bid_price := 3, ask_price := 3, delta := 1/2,
    expiry := 14, right := OptionRight.CALL }

/-- Day-14 call, strike 105 (the tested short leg on day 14). -/
def c14b : Contract :=
  { symbol := 32, strike := 105, bid_price := 1, ask_price := 2, delta := 3/20,
    expiry := 14, right := OptionRight.CALL }

/-- Day-14 call, strike 110 (the tested long leg on day 14). -/
def c14c : Contract :=
  { symbol := 33, strike := 110, bid_price := 1, ask_price := 3/2, delta := 1/20,
    expiry := 14, right := OptionRight.CALL }

/-- Day-14 put, strike 100 (at the money). -/
def p14a : Contract :=
  { symbol := 34, strike := 100, bid_price := 3, ask_price := 3, delta := -(1/2),
    expiry := 14, right := OptionRight.PUT }

/-- Day-14 put, strike 90 (the untested short leg on day 14). -/
def p14b : Contract :=
  { symbol := 35, strike := 90, bid_price := 4/5, ask_price := 1/2, delta := -(1/5),
    expiry := 14, right := OptionRight.PUT }

/-- Day-14 put, strike 85 (the untested long leg on day 14). -/
def p14c : Contract :=
  { symbol := 36, strike := 85, bid_price := 1/10, ask_price := 3/10, delta := -(1/10),
    expiry := 14, right := OptionRight.PUT }

/-- The tick's option chain: both expirations mixed. -/
def chain0 : List Contract :=
  [c12a, c12b, c12c, p12a, p12b, p12c, p12d,
   c14a, c14b, c14c, p14a, p14b, p14c]

/-- Day 12 tested call spread: short 105, long 110, credit −1. -/
def ts12 : Spread :=
  { short_leg := c12b, long_leg := c12c, price := -1, delta := 3/20,
    side := "call".toUpper }

/-- Day 12 untested put spread: short 90, long 85, credit 1/2. -/
def us12 : Spread :=
  { short_leg := p12c, long_leg := p12d, price := 1/2, delta := 1/5, side := "PUT" }

/-- Day 14 tested call spread: short 105, long 110, credit −1/2. -/
def ts14 : Spread :=
  { short_leg := c14b, long_leg := c14c, price := -(1/2), delta := 3/20,
    side := "call".toUpper }

/-- Day 14 untested put spread: short 90, long 85, credit 1/2. -/
def us14 : Spread :=
  { short_leg := p14b, long_leg := p14c, price := 1/2, delta := 1/5, side := "PUT" }

/-- Day 12 candidate: new credit −1/2, roll credit −1/2 − 9/10 = −7/5. -/
def bs12 : BestSpreads := { tested := ts12, untested := us12, roll_credit := -(7/5) }

/-- Day 14 candidate: new credit 0, roll credit 0 − 9/10 = −9/10 (the best). -/
def bs14 : BestSpreads := { tested := ts14, untested := us14, roll_credit := -(9/10) }

/-- The trade after the roll: all four legs replaced by the day-14
spreads, new combined credit 0, cumulative credit unchanged at 2. -/
def rolled0 : Trade :=
  { short_call := 32, long_call := 33, short_put := 35, long_put := 36,
    call_credit := -(1/2), put_credit := 1/2, entry_credit := 0,
    cumulative_credit := 2, profit_target := 6/5, max_loss := -7, expiry := 14 }

/-- Computation fact: distinctness of the side tag strings. -/
theorem str_call_put_eq_false : (("call" : String) = "put") = False :=
  eq_false (by decide)

/-- Computation fact: distinctness of the side tag strings. -/
theorem str_put_call_eq_false : (("put" : String) = "call") = False :=
  eq_false (by decide)

/-- Computation fact: distinctness of the side tag strings. -/
theorem str_upper_put_call_eq_false : (("PUT" : String) = "CALL") = False :=
  eq_false (by decide)

/-- Computation fact: distinctness of the side tag strings. -/
theorem str_upper_call_put_eq_false : (("CALL" : String) = "PUT") = False :=
  eq_false (by decide)

/-- Computation fact: the day-number comparison of the two expirations. -/
theorem beq_12_14_eq : ((12 : Nat) == 14) = false := by decide

/-- Computation fact: the day-number comparison of the two expirations. -/
theorem beq_14_12_eq : ((14 : Nat) == 12) = false := by decide

theorem eval_expiry12 :
    evaluate_expiry env0 finderR chain0 trade0 ("call") 100 12 = some bs12 := by
  norm_num [evaluate_expiry, find_spread_with_target_delta, fswtd_go,
    find_initial_spread, pick_contract, minByKey, calculate_straddle_price,
    close_cost, List.find?, List.filter, List.mergeSort, List.merge,
    chain0, c12a, c12b, c12c, p12a, p12b, p12c, p12d,
    c14a, c14b, c14c, p14a, p14b, p14c, trade0, env0, finderR, finderA,
    round2, round_eq, abs, bs12, ts12, us12,
    beq_call_put_eq, beq_put_put_eq, beq_call_call_eq, beq_put_call_eq,
    str_call_put_eq_false, str_put_call_eq_false,
    str_upper_put_call_eq_false, str_upper_call_put_eq_false,
    beq_12_14_eq, beq_14_12_eq]

theorem eval_expiry14 :
    evaluate_expiry env0 finderR chain0 trade0 ("call") 100 14 = some bs14 := by
  norm_num [evaluate_expiry, find_spread_with_target_delta, fswtd_go,
    find_initial_spread, pick_contract, minByKey, calculate_straddle_price,
    close_cost, List.find?, List.filter, List.mergeSort, List.merge,
    chain0, c12a, c12b, c12c, p12a, p12b, p12c, p12d,
    c14a, c14b, c14c, p14a, p14b, p14c, trade0, env0, finderR, finderA,
    round2, round_eq, abs, bs14, ts14, us14,
    beq_call_put_eq, beq_put_put_eq, beq_call_call_eq, beq_put_call_eq,
    str_call_put_eq_false, str_put_call_eq_false,
    str_upper_put_call_eq_false, str_upper_call_put_eq_false,
    beq_12_14_eq, beq_14_12_eq]

/-- The full roll on the concrete scenario: day 14 wins (roll credit
−9/10 beats −7/5) and the trade is rewritten to `rolled0`. -/
theorem roll_eval0 :
    roll_for_side env0 finderR (some chain0) trade0 ("call") 10 100 = some rolled0 := by
  have h1 : (chain0.filterMap (fun c =>
      if trade0.expiry < c.expiry ∧ c.expiry ≤ 10 + 7 then some c.expiry
      else none)) = [12, 12, 12, 12, 12, 12, 12, 14, 14, 14, 14, 14, 14] := by
    norm_num [chain0, c12a, c12b, c12c, p12a, p12b, p12c, p12d,
      c14a, c14b, c14c, p14a, p14b, p14c, trade0,
      List.filterMap_cons, List.filterMap_nil]
  have h2 : ([12, 12, 12, 12, 12, 12, 12, 14, 14, 14, 14, 14, 14] :
      List Nat).dedup = [12, 14] := by decide
  have h3 : ([12, 14] : List Nat).mergeSort (fun a b => a ≤ b) = [12, 14] := by
    norm_num [List.mergeSort, List.merge]
  simp only [roll_for_side, h1, h2, h3, List.isEmpty_cons]
  simp only [roll_loop, eval_expiry12, eval_expiry14]
  norm_num [bs12, bs14, mutate_trade, ts14, us14, c14b, c14c, p14b, p14c,
    rolled0, trade0, round2, round_eq]

/-- C2 (counterexample): on the concrete scenario the roll succeeds and
the untested (put) side's short leg, long leg and per-side credit all
change — the claim that the untested side is held unchanged is false. -/
theorem roll_untested_side_changed_cex :
    roll_for_side env0 finderR (some chain0) trade0 ("call") 10 100 = some rolled0 ∧
    rolled0.short_put ≠ trade0.short_put ∧
    rolled0.long_put ≠ trade0.long_put ∧
    rolled0.put_credit ≠ trade0.put_credit :=
  ⟨roll_eval0, by norm_num [rolled0, trade0], by norm_num [rolled0, trade0],
    by norm_num [rolled0, trade0]⟩

/-- C2 (witness for the amended theorem): applied to the concrete
successful roll, where the day-14 builders supply all four replacement
legs. -/
theorem roll_replaces_all_four_witness :
    ∃ e ts us,
      trade0.expiry < e ∧ e ≤ 10 + 7 ∧
      (if "call" == "call" then
         find_spread_with_target_delta
           (((chain0.filter (fun c => c.expiry == e)).filter
               (fun c => c.right == OptionRight.CALL)).mergeSort
             (fun a b => a.strike ≤ b.strike))
           (1/5 : ℚ) (IronCondorFinder.spread_width finderR) ("call")
       else
         find_spread_with_target_delta
           (((chain0.filter (fun c => c.expiry == e)).filter
               (fun c => c.right == OptionRight.PUT)).mergeSort
             (fun a b => b.strike ≤ a.strike))
           (1/5 : ℚ) (IronCondorFinder.spread_width finderR) ("put")) = some ts ∧
      (if "call" == "call" then
         find_initial_spread finderR
           (((chain0.filter (fun c => c.expiry == e)).filter
               (fun c => c.right == OptionRight.PUT)).mergeSort
             (fun a b => b.strike ≤ a.strike))
           100
           (calculate_straddle_price (chain0.filter (fun c => c.expiry == e))
             100) ("PUT")
       else
         find_initial_spread finderR
           (((chain0.filter (fun c => c.expiry == e)).filter
               (fun c => c.right == OptionRight.CALL)).mergeSort
             (fun a b => a.strike ≤ b.strike))
           100
           (calculate_straddle_price (chain0.filter (fun c => c.expiry == e))
             100) ("CALL")) = some us ∧
      rolled0.expiry = ts.short_leg.expiry ∧
      ("call" = "call" →
        rolled0.short_call = ts.short_leg.symbol ∧
        rolled0.long_call = ts.long_leg.symbol ∧
        rolled0.short_put = us.short_leg.symbol ∧
        rolled0.long_put = us.long_leg.symbol ∧
        rolled0.call_credit = round2 ts.price ∧
        rolled0.put_credit = round2 us.price) ∧
      ("call" ≠ "call" →
        rolled0.short_put = ts.short_leg.symbol ∧
        rolled0.long_put = ts.long_leg.symbol ∧
        rolled0.short_call = us.short_leg.symbol ∧
        rolled0.long_call = us.long_leg.symbol ∧
        rolled0.put_credit = round2 ts.price ∧
        rolled0.call_credit = round2 us.price) :=
  roll_replaces_all_four env0 finderR chain0 trade0 ("call") 10 100
    rolled0 roll_eval0

/-- C3 (counterexample): the concrete scenario's best roll has combined
credit 0, so after the successful roll `cumulative_credit` does not
strictly increase (it stays at 2). -/
theorem roll_cumulative_not_increasing_cex :
    roll_for_side env0 finderR (some chain0) trade0 ("call") 10 100 = some rolled0 ∧
    ¬ trade0.cumulative_credit < rolled0.cumulative_credit :=
  ⟨roll_eval0, by norm_num [rolled0, trade0]⟩

/-- C3 (witness for the amended theorem): applied to the concrete
successful roll. -/
theorem roll_updates_credit_targets_witness :
    rolled0.cumulative_credit = trade0.cumulative_credit + rolled0.entry_credit ∧
    rolled0.profit_target = rolled0.cumulative_credit * (3/5 : ℚ) ∧
    rolled0.max_loss = rolled0.cumulative_credit * (-(7/2) : ℚ) ∧
    (0 < rolled0.entry_credit →
      trade0.cumulative_credit < rolled0.cumulative_credit) :=
  roll_updates_credit_targets env0 finderR (some chain0) trade0 ("call") 10 100
    rolled0 roll_eval0

/-- C9 (witness): on the concrete scenario the successful roll comes from
a qualifying expiration with maximal roll credit. -/
theorem roll_considers_maximises_witness :
    ∃ e bs, rollQualifies env0 finderR chain0 trade0 ("call") 100 10 e ∧
      evaluate_expiry env0 finderR chain0 trade0 ("call") 100 e = some bs ∧
      (∀ e' bs', rollQualifies env0 finderR chain0 trade0 ("call") 100 10 e' →
        evaluate_expiry env0 finderR chain0 trade0 ("call") 100 e' = some bs' →
        bs'.roll_credit ≤ bs.roll_credit) ∧
      rolled0 = mutate_trade trade0 ("call") bs :=
  (roll_for_side_considers_and_maximises env0 finderR chain0 trade0 ("call") 10 100).2.2
    rolled0 roll_eval0
